import Mathlib

/-!
Shallow embedding of the core retrieval pipeline of the YouTube transcript
RAG application (source files `backend.py`, `app.py`, `utils.py`).

Python strings are `String`, Python `None`-able strings are `Option String`,
Python lists are `List`, Python dicts carrying fixed keys are structures with
`Option` fields for keys that are absent on some code paths.  Network calls
and third-party library calls (caption API, yt_dlp, AssemblyAI, embeddings,
the text splitter) are modelled as explicit oracle parameters: the repository
code only inspects their results, so each claim is settled for every possible
oracle behaviour.  Python exceptions are modelled with `Except`; a bare
`except:` corresponds to matching on the `.error` constructor.
-/

namespace YtRag

/-! ### String helpers (Python `in`, `startswith`, `lstrip`) -/

/-- Model of `needle in haystack` restricted to the case where `haystack`
starts with `needle`. -/
def startsWithList : List Char → List Char → Bool
  | _, [] => true
  | [], _ :: _ => false
  | a :: as, b :: bs => (a == b) && startsWithList as bs

/-- Scan every suffix of the haystack for the needle. -/
def containsSeq (needle : List Char) : List Char → Bool
  | [] => needle.isEmpty
  | c :: rest => startsWithList (c :: rest) needle || containsSeq needle rest

/-- Model of the Python substring test `pat in s`. -/
def strContains (s pat : String) : Bool :=
  containsSeq pat.toList s.toList

/-- Model of Python `s.startswith(pat)`. -/
def strStartsWith (s pat : String) : Bool :=
  startsWithList s.toList pat.toList

/-- Model of Python `s.lstrip('/')`. -/
def lstripSlash (s : String) : String :=
  String.mk (s.toList.dropWhile (· == '/'))

/-- Suffix strictly after the first occurrence of `sep`, if any. -/
def dropThroughSeq (sep : List Char) : List Char → Option (List Char)
  | [] => none
  | c :: rest =>
    if startsWithList (c :: rest) sep then some (List.drop sep.length (c :: rest))
    else dropThroughSeq sep rest

/-- Text up to (excluding) the first occurrence of `sep`. -/
def takeUntilSeq (sep : List Char) : List Char → List Char
  | [] => []
  | c :: rest =>
    if startsWithList (c :: rest) sep then []
    else c :: takeUntilSeq sep rest

/-- Model of Python `s.split(sep)` for a one-character separator. -/
def splitOnCharL (sep : Char) : List Char → List (List Char)
  | [] => [[]]
  | c :: rest =>
    if c == sep then [] :: splitOnCharL sep rest
    else
      match splitOnCharL sep rest with
      | [] => [[c]]
      | h :: t => (c :: h) :: t

/-! ### Model of `urllib.parse.urlparse` / `parse_qs`

Only the `netloc`, `path` and `query` components are consulted by the
source, so the component model produces exactly those three.  Percent- and
plus-decoding of query strings are not modelled.  `urlsplit` also raises
`ValueError("Invalid IPv6 URL")` when the netloc contains an unbalanced
square bracket; that raise happens before anything else in
`get_youtube_video_id` runs, so it is modelled by the separate
`urlparseRaises` test and the `_checked` wrappers below, while the pure
component functions describe the non-raising computation. -/

/-- Characters permitted in a URL scheme. -/
def schemeChar (c : Char) : Bool :=
  c.isAlpha || c.isDigit || c == '+' || c == '-' || c == '.'

/-- Strip a leading `scheme:` when the prefixed text is a valid scheme,
as CPython `urlsplit` does. -/
def splitSchemeRest (l : List Char) : List Char :=
  let before := l.takeWhile (· != ':')
  let after := l.dropWhile (· != ':')
  match after with
  | [] => l
  | _ :: rest =>
    match before with
    | [] => l
    | c :: _ => if c.isAlpha && before.all schemeChar then rest else l

/-- Component record for a parsed URL: netloc, path and query. -/
structure UrlParts where
  netloc : String
  path : String
  query : String
deriving DecidableEq, Repr

/-- Model of `urlparse`, keeping the three components the source reads. -/
def urlparseParts (url : String) : UrlParts :=
  let rest := splitSchemeRest url.toList
  let hasNetloc := rest.take 2 == ['/', '/']
  let netloc :=
    if hasNetloc then
      (rest.drop 2).takeWhile (fun c => !(c == '/' || c == '?' || c == '#'))
    else []
  let rest2 :=
    if hasNetloc then
      (rest.drop 2).dropWhile (fun c => !(c == '/' || c == '?' || c == '#'))
    else rest
  let beforeHash := rest2.takeWhile (· != '#')
  let path := beforeHash.takeWhile (· != '?')
  let afterQ := beforeHash.dropWhile (· != '?')
  let query := match afterQ with | [] => ([] : List Char) | _ :: t => t
  { netloc := String.mk netloc, path := String.mk path, query := String.mk query }

/-- Model of `parse_qs` with default options: split the query on `&`, keep
only `name=value` pairs with a nonempty value. -/
def qsPairs (query : String) : List (String × String) :=
  (splitOnCharL '&' query.toList).filterMap (fun cs =>
    if cs.contains '=' then
      let name := String.mk (cs.takeWhile (· != '='))
      let value := String.mk ((cs.dropWhile (· != '=')).drop 1)
      if value == "" then none else some (name, value)
    else none)

/-- First value bound to a key in the parsed query, i.e. `parse_qs(q)[k][0]`
when the key is present. -/
def qsFirstValue (query key : String) : Option String :=
  (qsPairs query).lookup key

/-! ### Model of `re.search(r'(?:v=|\/)([0-9A-Za-z_-]{11})', url)` -/

/-- Character class `[0-9A-Za-z_-]`. -/
def idChar (c : Char) : Bool :=
  c.isAlpha || c.isDigit || c == '_' || c == '-'

/-- Try the pattern at one position: `v=` followed by eleven id characters,
or `/` followed by eleven id characters. -/
def idMatchAt : List Char → Option (List Char)
  | 'v' :: '=' :: rest =>
    if rest.length ≥ 11 && (rest.take 11).all idChar then some (rest.take 11)
    else none
  | '/' :: rest =>
    if rest.length ≥ 11 && (rest.take 11).all idChar then some (rest.take 11)
    else none
  | _ => none

/-- Scan positions left to right, as `re.search` does. -/
def idScanAux : List Char → Option String
  | [] => none
  | c :: rest =>
    match idMatchAt (c :: rest) with
    | some found => some (String.mk found)
    | none => idScanAux rest

/-- Model of the regex fallback in `get_youtube_video_id`. -/
def idScan (url : String) : Option String :=
  idScanAux url.toList

/-! ### `get_youtube_video_id` (backend.py lines 56-65) -/

/-- Translation of `get_youtube_video_id` on URLs where `urlparse` does not
raise (`get_youtube_video_id_checked` below adds the raising path):
`None` is `none`; note the source can also return the empty string (from
`lstrip`), which callers treat as falsy exactly like `None`. -/
def get_youtube_video_id (url : String) : Option String :=
  let parts := urlparseParts url
  let fromWatch : Option String :=
    if strContains parts.netloc "youtube.com" then qsFirstValue parts.query "v"
    else none
  match fromWatch with
  | some v => some v
  | none =>
    if strContains parts.netloc "youtu.be" then some (lstripSlash parts.path)
    else idScan url

/-! ### Transcript fetcher (backend.py lines 67-126) -/

/-- Python exceptions as seen by the fetcher: `TranscriptsDisabled` or any
other exception carrying its display text. -/
inductive PyExn where
  | transcriptsDisabled
  | other (msg : String)
deriving DecidableEq, Repr

/-- Display text of an exception, as produced by an f-string. -/
def PyExn.msg : PyExn → String
  | .transcriptsDisabled => "TranscriptsDisabled"
  | .other m => m

/-- One caption segment; the source only inspects presence of the `text`
key, so the other keys are omitted. -/
structure CapSeg where
  text : Option String
deriving DecidableEq, Repr

/-- Value returned by a caption-API call: a Python list of segments, or a
value of some other shape (failing the `isinstance(..., list)` test). -/
inductive CapResult where
  | segs (items : List CapSeg)
  | other
deriving DecidableEq, Repr

/-- Translation of backend.py lines 119-121: well-formed caption lists are
joined with single spaces, anything else yields the format-error sentinel. -/
def joinCaptions (r : CapResult) : String :=
  match r with
  | .segs items =>
    if items.all (fun s => s.text.isSome) then
      String.intercalate " " (items.filterMap (fun s => s.text))
    else "Error: Unexpected transcript format received."
  | .other => "Error: Unexpected transcript format received."

/-- Translation of `assemblyai_transcribe_youtube`.  The oracle `t4` stands
for the yt_dlp download plus AssemblyAI transcription of the url; the
enclosing `try` turns any exception into the `Error (AssemblyAI):` string. -/
def assemblyai_transcribe_youtube (t4 : String → Except PyExn String)
    (url : String) : String :=
  match get_youtube_video_id url with
  | none => "Error: Invalid YouTube URL"
  | some vid =>
    if vid == "" then "Error: Invalid YouTube URL"
    else
      match t4 url with
      | .ok text => text
      | .error e => "Error (AssemblyAI): " ++ e.msg

/-- Translation of `get_youtube_transcript` on URLs where `urlparse` does
not raise (`get_youtube_transcript_trace_checked` below adds that path),
instrumented with the list of fallback tiers actually attempted, in order.
`t1`, `t2`, `t3` are the
caption-API calls for `["en"]`, `["en-US"]` and the listing/find/fetch
sequence; each inner bare `except:` catches every exception, so the outer
`except TranscriptsDisabled` / `except Exception` handlers of the source are
unreachable once a video id exists. -/
def get_youtube_transcript_trace
    (t1 t2 t3 : String → Except PyExn CapResult)
    (t4 : String → Except PyExn String)
    (url : String) : String × List String :=
  match get_youtube_video_id url with
  | none => ("Error: Invalid YouTube URL", [])
  | some vid =>
    if vid == "" then ("Error: Invalid YouTube URL", [])
    else
      match t1 vid with
      | .ok r => (joinCaptions r, ["en"])
      | .error _ =>
        match t2 vid with
        | .ok r => (joinCaptions r, ["en", "en-US"])
        | .error _ =>
          match t3 vid with
          | .ok r => (joinCaptions r, ["en", "en-US", "listing"])
          | .error _ =>
            (assemblyai_transcribe_youtube t4 url,
             ["en", "en-US", "listing", "assemblyai"])

/-- The transcript string returned to callers. -/
def get_youtube_transcript
    (t1 t2 t3 : String → Except PyExn CapResult)
    (t4 : String → Except PyExn String)
    (url : String) : String :=
  (get_youtube_transcript_trace t1 t2 t3 t4 url).1

/-- CPython `urlsplit`'s bracket test: a netloc containing `[` without `]`
or `]` without `[` raises `ValueError("Invalid IPv6 URL")`; the returned
message is `str(e)` as the source's f-strings render it.  CPython 3.11+
additionally validates hosts with balanced brackets, a path that can fire
only when `[` occurs in the netloc; theorems below therefore only conclude
non-raising on bracket-free netlocs. -/
def urlparseRaises (url : String) : Option String :=
  let netloc := (urlparseParts url).netloc.toList
  if (netloc.contains '[' && !netloc.contains ']') ||
      (netloc.contains ']' && !netloc.contains '[') then
    some "Invalid IPv6 URL"
  else none

/-- The netloc contains no square bracket at all, so no CPython version
raises while parsing it. -/
def netlocNoBrackets (url : String) : Bool :=
  let netloc := (urlparseParts url).netloc.toList
  !netloc.contains '[' && !netloc.contains ']'

/-- `get_youtube_video_id` with `urlparse`'s raise modelled: the source
calls `urlparse(url)` first, so a bracket `ValueError` propagates to the
caller before any extraction is attempted; otherwise the pure extraction
runs. -/
def get_youtube_video_id_checked (url : String) : Except String (Option String) :=
  match urlparseRaises url with
  | some m => Except.error m
  | none => Except.ok (get_youtube_video_id url)

/-- `get_youtube_transcript` with `urlparse`'s raise modelled: the
`ValueError` escapes `get_youtube_video_id` inside the outer `try` of the
source and is caught by `except Exception as e: return f"Error: {e}"`, so
the caller receives `"Error: " + str(e)` and no tier is attempted. -/
def get_youtube_transcript_trace_checked
    (t1 t2 t3 : String → Except PyExn CapResult)
    (t4 : String → Except PyExn String)
    (url : String) : String × List String :=
  match urlparseRaises url with
  | some m => ("Error: " ++ m, [])
  | none => get_youtube_transcript_trace t1 t2 t3 t4 url

/-- The transcript string of the checked model. -/
def get_youtube_transcript_checked
    (t1 t2 t3 : String → Except PyExn CapResult)
    (t4 : String → Except PyExn String)
    (url : String) : String :=
  (get_youtube_transcript_trace_checked t1 t2 t3 t4 url).1

/-! ### `detect_url_type` (backend.py lines 255-262) -/

/-- Translation of `detect_url_type`. -/
def detect_url_type (url : String) : String :=
  if strContains url "/watch?v=" && !(strContains url "list=") then
    "single_video"
  else if strContains url "list=" then "playlist"
  else if strContains url "/search?" ||
      (strContains url "/@" && strContains url "search") then "channel_search"
  else "unknown"

/-! ### Video enumerators (backend.py lines 130-184) -/

/-- One entry of the yt_dlp flat extraction: `entry.get('id')` and
`entry.get('title')` may each be missing. -/
structure YEntry where
  id : Option String
  title : Option String
deriving DecidableEq, Repr

/-- Body of the entry loop in `extract_video_links_from_search_url`: an
entry is kept when both fields are present and truthy (nonempty). -/
def canonEntry (e : YEntry) : Option (String × String) :=
  match e.id, e.title with
  | some i, some t =>
    if i != "" && t != "" then
      some ("https://www.youtube.com/watch?v=" ++ i, t)
    else none
  | _, _ => none

/-- Translation of `extract_video_links_from_search_url`, with the yt_dlp
`entries` list as oracle input; the source slices `entries[:max_videos]`
before filtering.  The enclosing `try` returns `[]` on any exception, which
satisfies every bound below trivially and is not modelled separately. -/
def extract_video_links_from_search_url
    (entries : List YEntry) (max_videos : Nat) : List (String × String) :=
  (entries.take max_videos).filterMap canonEntry

/-- Canonical watch URL reconstructed from a video id. -/
def watchUrl (videoId : String) : String :=
  "https://www.youtube.com/watch?v=" ++ videoId

/-- Inner loop of `extract_video_links_from_playlist` over the regex matches
of one script: deduplicate by url, append, and break once `max_videos` is
reached.  Returning models `break`. -/
def playlist_matches_loop (max_videos : Nat) (acc : List (String × String)) :
    List (String × String) → List (String × String)
  | [] => acc
  | (vid, title) :: rest =>
    let url := watchUrl vid
    if acc.any (fun p => p.1 == url) then
      playlist_matches_loop max_videos acc rest
    else
      let acc2 := acc ++ [(url, title)]
      if max_videos ≤ acc2.length then acc2
      else playlist_matches_loop max_videos acc2 rest

/-- Outer loop over the page scripts that contain `ytInitialData`; each
script is represented by its list of `(videoId, title)` regex matches.  The
source breaks out of the script loop as soon as `video_links` is nonempty. -/
def playlist_scripts_loop (max_videos : Nat) (acc : List (String × String)) :
    List (List (String × String)) → List (String × String)
  | [] => acc
  | m :: rest =>
    let acc2 := playlist_matches_loop max_videos acc m
    if acc2.isEmpty then playlist_scripts_loop max_videos acc2 rest else acc2

/-- The playlist id computed by `split('list=')[1].split('&')[0]` at line
155, with the no-`list=` case folded into the empty string, which the
source treats as falsy exactly like `None`. -/
def playlistIdOf (playlist_url : String) : String :=
  if strContains playlist_url "list=" then
    match dropThroughSeq "list=".toList playlist_url.toList with
    | none => ""
    | some after =>
      String.mk (takeUntilSeq ['&'] (takeUntilSeq "list=".toList after))
  else ""

/-- Translation of `extract_video_links_from_playlist`.  The fetched page is
represented by `scripts`, the per-script match lists; the playlist id must
be truthy.  As for the search path, the exception handler returning `[]` on
a network failure is not modelled. -/
def extract_video_links_from_playlist (playlist_url : String)
    (scripts : List (List (String × String))) (max_videos : Nat) :
    List (String × String) :=
  if playlistIdOf playlist_url == "" then []
  else playlist_scripts_loop max_videos [] scripts

/-! ### Batch build pipeline (backend.py lines 206-247) -/

/-- Metadata attached to every chunk of a video at lines 225-226. -/
structure ChunkMeta where
  source : String
  title : String
  video_index : Nat
deriving DecidableEq, Repr

/-- One document chunk produced by the splitter. -/
structure Chunk where
  page_content : String
  metadata : ChunkMeta
deriving DecidableEq, Repr

/-- One per-video entry of `processing_results`; `chunks_count` is present
only on success, `error` only on failure, mirroring the two dict shapes. -/
structure Outcome where
  url : String
  title : String
  status : String
  chunks_count : Option Nat
  error : Option String
deriving DecidableEq, Repr

/-- Return value of `build_vectorstore_from_multiple_videos`: the error
dict carries only `error` and `processing_results`; the success dict carries
the remaining keys.  The FAISS index is represented by the list of chunks it
was built from (`index_chunks`), present only when an index is built. -/
structure BuildResult where
  error : Option String
  processing_results : List Outcome
  chunks : Option (List Chunk)
  total_chunks : Option Nat
  successful_videos : Option Nat
  index_chunks : Option (List Chunk)
deriving DecidableEq, Repr

/-- The failure test at line 218: the transcript is rejected exactly when it
starts with `Error:` or `No captions`. -/
def failedTranscript (t : String) : Bool :=
  strStartsWith t "Error:" || strStartsWith t "No captions"

/-- Chunks contributed by the video at position `i`: none on a failed
transcript, otherwise the split texts tagged with the video's metadata.
`split` is the oracle for `RecursiveCharacterTextSplitter(1000, 200)`. -/
def videoChunks (fetch : String → String) (split : String → List String)
    (i : Nat) (url title : String) : List Chunk :=
  let transcript := fetch url
  if failedTranscript transcript then []
  else
    (split transcript).map (fun text =>
      { page_content := text
        metadata := { source := url, title := title, video_index := i } })

/-- The `processing_results` entry recorded for the video at position `i`. -/
def videoOutcome (fetch : String → String) (split : String → List String)
    (i : Nat) (url title : String) : Outcome :=
  let transcript := fetch url
  if failedTranscript transcript then
    { url := url, title := title, status := "failed",
      chunks_count := none, error := some transcript }
  else
    { url := url, title := title, status := "success",
      chunks_count := some (videoChunks fetch split i url title).length,
      error := none }

/-- The main loop of `build_vectorstore_from_multiple_videos`, accumulating
`all_chunks` and `processing_results` over the enumerated videos starting at
index `i`.  The progress callback and the pacing sleep have no effect on the
returned data and are omitted. -/
def build_vectorstore_loop (fetch : String → String)
    (split : String → List String) :
    Nat → List (String × String) → List Chunk × List Outcome
  | _, [] => ([], [])
  | i, (url, title) :: rest =>
    let r := build_vectorstore_loop fetch split (i + 1) rest
    (videoChunks fetch split i url title ++ r.1,
     videoOutcome fetch split i url title :: r.2)

/-- Translation of `build_vectorstore_from_multiple_videos`.  In the source
`fetch` is `get_youtube_transcript`, whose network-dependent tiers make it an
arbitrary `String → String`; the embedding model and FAISS construction only
consume `all_chunks`, so the built index is represented by that list. -/
def build_vectorstore_from_multiple_videos (fetch : String → String)
    (split : String → List String) (video_urls : List (String × String)) :
    BuildResult :=
  let r := build_vectorstore_loop fetch split 0 video_urls
  let all_chunks := r.1
  let results := r.2
  if all_chunks.isEmpty then
    { error := some "No transcripts processed", processing_results := results,
      chunks := none, total_chunks := none, successful_videos := none,
      index_chunks := none }
  else
    { error := none, processing_results := results,
      chunks := some all_chunks, total_chunks := some all_chunks.length,
      successful_videos :=
        some ((results.filter (fun o => o.status == "success")).length),
      index_chunks := some all_chunks }

/-! ### Answer sources (app.py lines 356-366 and 307-317) -/

/-- One source citation accumulated for an answer. -/
structure SourceEntry where
  title : String
  url : String
deriving DecidableEq, Repr

/-- A retrieved document as seen by the chat handler: its metadata dict is
modelled as an association list, absent metadata as `none`. -/
structure RDoc where
  page_content : String
  metadata : Option (List (String × String))
deriving DecidableEq, Repr

/-- Model of `d.get(k, default)` on the metadata dict. -/
def dictGet (d : List (String × String)) (k dflt : String) : String :=
  match d.lookup k with
  | some v => v
  | none => dflt

/-- Translation of app.py lines 360-366: the `sources` list attached to an
assistant message, one entry per retrieved document whose metadata is
present and truthy (a nonempty dict). -/
def answer_sources (docs : List RDoc) : List SourceEntry :=
  docs.filterMap (fun d =>
    match d.metadata with
    | none => none
    | some m =>
      if m.isEmpty then none
      else some { title := dictGet m "title" "Unknown",
                  url := dictGet m "source" "Unknown" })

/-- Loop of app.py lines 309-314 with `seen_urls` as an explicit list. -/
def unique_sources_loop : List SourceEntry → List String → List SourceEntry
  | [], _ => []
  | s :: rest, seen =>
    if seen.contains s.url then unique_sources_loop rest seen
    else s :: unique_sources_loop rest (s.url :: seen)

/-- Translation of the `unique_sources` deduplication used for display. -/
def unique_sources (sources : List SourceEntry) : List SourceEntry :=
  unique_sources_loop sources []

end YtRag

/-! ## Helper lemmas about the batch build loop -/

namespace YtRag

/-- The loop records exactly one outcome per input video. -/
theorem build_loop_snd_length (fetch : String → String)
    (split : String → List String) :
    ∀ (k : Nat) (l : List (String × String)),
      ((build_vectorstore_loop fetch split k l).2).length = l.length := by
  intro k l
  induction l generalizing k with
  | nil => rfl
  | cons p rest ih =>
    cases p with
    | mk url title => simp [build_vectorstore_loop, ih]

/-- The outcome at position `i` is the record for the video at position `i`,
tagged with the running index. -/
theorem build_loop_snd_getElem (fetch : String → String)
    (split : String → List String) :
    ∀ (k i : Nat) (l : List (String × String)) (url title : String),
      l[i]? = some (url, title) →
      ((build_vectorstore_loop fetch split k l).2)[i]? =
        some (videoOutcome fetch split (k + i) url title) := by
  intro k i l
  induction l generalizing k i with
  | nil => intro url title h; simp at h
  | cons p rest ih =>
    intro url title h
    cases p with
    | mk u t =>
      cases i with
      | zero =>
        simp only [List.getElem?_cons_zero, Option.some.injEq, Prod.mk.injEq] at h
        obtain ⟨h1, h2⟩ := h
        subst h1
        subst h2
        simp [build_vectorstore_loop]
      | succ j =>
        simp only [List.getElem?_cons_succ] at h
        have hres := ih (k + 1) j url title h
        simp only [build_vectorstore_loop, List.getElem?_cons_succ]
        rw [hres]
        have : k + 1 + j = k + (j + 1) := by omega
        rw [this]

/-- Outcome statuses, in order, mirror the per-video failure test. -/
theorem build_loop_statuses (fetch : String → String)
    (split : String → List String) :
    ∀ (k : Nat) (l : List (String × String)),
      ((build_vectorstore_loop fetch split k l).2).map (fun o => o.status) =
        l.map (fun p =>
          if failedTranscript (fetch p.1) then "failed" else "success") := by
  intro k l
  induction l generalizing k with
  | nil => rfl
  | cons p rest ih =>
    cases p with
    | mk u t =>
      by_cases hf : failedTranscript (fetch u) = true
      · simp [build_vectorstore_loop, videoOutcome, hf, ih]
      · simp only [Bool.not_eq_true] at hf
        simp [build_vectorstore_loop, videoOutcome, hf, ih]

/-- Count of success outcomes equals the count of non-failing fetches. -/
theorem build_loop_success_count (fetch : String → String)
    (split : String → List String) :
    ∀ (k : Nat) (l : List (String × String)),
      (((build_vectorstore_loop fetch split k l).2).filter
          (fun o => o.status == "success")).length =
        (l.filter (fun p => !failedTranscript (fetch p.1))).length := by
  intro k l
  induction l generalizing k with
  | nil => rfl
  | cons p rest ih =>
    cases p with
    | mk u t =>
      by_cases hf : failedTranscript (fetch u) = true
      · simp [build_vectorstore_loop, videoOutcome, List.filter_cons, hf, ih]
      · simp only [Bool.not_eq_true] at hf
        simp [build_vectorstore_loop, videoOutcome, List.filter_cons, hf, ih]

/-- Count of failed outcomes equals the count of failing fetches. -/
theorem build_loop_failed_count (fetch : String → String)
    (split : String → List String) :
    ∀ (k : Nat) (l : List (String × String)),
      (((build_vectorstore_loop fetch split k l).2).filter
          (fun o => o.status == "failed")).length =
        (l.filter (fun p => failedTranscript (fetch p.1))).length := by
  intro k l
  induction l generalizing k with
  | nil => rfl
  | cons p rest ih =>
    cases p with
    | mk u t =>
      by_cases hf : failedTranscript (fetch u) = true
      · simp [build_vectorstore_loop, videoOutcome, List.filter_cons, hf, ih]
      · simp only [Bool.not_eq_true] at hf
        simp [build_vectorstore_loop, videoOutcome, List.filter_cons, hf, ih]

/-- When every fetch fails, the loop accumulates no chunks at all. -/
theorem build_loop_fst_nil_of_failed (fetch : String → String)
    (split : String → List String) :
    ∀ (k : Nat) (l : List (String × String)),
      (∀ p ∈ l, failedTranscript (fetch p.1) = true) →
      (build_vectorstore_loop fetch split k l).1 = [] := by
  intro k l
  induction l generalizing k with
  | nil => intro _; rfl
  | cons p rest ih =>
    intro h
    cases p with
    | mk u t =>
      have hu : failedTranscript (fetch u) = true := h (u, t) (by simp)
      have hrest := ih (k + 1) (fun q hq => h q (List.mem_cons_of_mem _ hq))
      simp [build_vectorstore_loop, videoChunks, hu, hrest]

/-- Every accumulated chunk comes from the video at some input position, and
is tagged with exactly that position and that video's url and title. -/
theorem mem_build_loop_fst (fetch : String → String)
    (split : String → List String) :
    ∀ (k : Nat) (l : List (String × String)) (c : Chunk),
      c ∈ (build_vectorstore_loop fetch split k l).1 →
      ∃ i url title, l[i]? = some (url, title) ∧
        c.metadata = { source := url, title := title, video_index := k + i } ∧
        c ∈ videoChunks fetch split (k + i) url title := by
  intro k l
  induction l generalizing k with
  | nil => intro c hc; simp [build_vectorstore_loop] at hc
  | cons p rest ih =>
    intro c hc
    cases p with
    | mk u t =>
      simp only [build_vectorstore_loop] at hc
      rw [List.mem_append] at hc
      cases hc with
      | inl h =>
        refine ⟨0, u, t, by simp, ?_, by simpa using h⟩
        unfold videoChunks at h
        by_cases hf : failedTranscript (fetch u) = true
        · simp [hf] at h
        · simp only [Bool.not_eq_true] at hf
          simp only [hf, Bool.false_eq_true, if_false] at h
          obtain ⟨text, _, rfl⟩ := List.mem_map.mp h
          simp
      | inr h =>
        obtain ⟨i, url, title, h1, h2, h3⟩ := ih (k + 1) c h
        refine ⟨i + 1, url, title, by simpa using h1, ?_, ?_⟩
        · rw [h2]
          have : k + 1 + i = k + (i + 1) := by omega
          rw [this]
        · have : k + (i + 1) = k + 1 + i := by omega
          rw [this]
          exact h3

/-- Both return branches carry the loop's outcome list unchanged. -/
theorem build_processing_results_eq (fetch : String → String)
    (split : String → List String) (l : List (String × String)) :
    (build_vectorstore_from_multiple_videos fetch split l).processing_results =
      (build_vectorstore_loop fetch split 0 l).2 := by
  simp only [build_vectorstore_from_multiple_videos]
  split <;> rfl

/-- A present `chunks` field is exactly the loop's chunk accumulation. -/
theorem build_chunks_eq (fetch : String → String)
    (split : String → List String) (l : List (String × String))
    (cs : List Chunk) :
    (build_vectorstore_from_multiple_videos fetch split l).chunks = some cs →
    cs = (build_vectorstore_loop fetch split 0 l).1 := by
  simp only [build_vectorstore_from_multiple_videos]
  split
  · intro h; simp at h
  · intro h
    simp only [Option.some.injEq] at h
    exact h.symm

end YtRag

/-! ## Claim theorems -/

namespace YtRag

/-- C1: the pipeline only treats a transcript as failed when it starts with
`Error:` or `No captions`; a tier-4 failure string `Error (AssemblyAI): ...`
begins with the error sentinel `Error` yet is recorded as a success outcome
and contributes its text as an indexed chunk, contradicting the claim. -/
theorem build_treats_assemblyai_error_as_success :
    ("Error (AssemblyAI): boom" : String) = "Error" ++ " (AssemblyAI): boom" ∧
    failedTranscript "Error (AssemblyAI): boom" = false ∧
    (build_vectorstore_from_multiple_videos
        (fun _ => "Error (AssemblyAI): boom") (fun s => [s])
        [("u", "t")]).processing_results =
      [{ url := "u", title := "t", status := "success",
         chunks_count := some 1, error := none }] ∧
    (build_vectorstore_from_multiple_videos
        (fun _ => "Error (AssemblyAI): boom") (fun s => [s])
        [("u", "t")]).chunks =
      some [{ page_content := "Error (AssemblyAI): boom",
              metadata := { source := "u", title := "t", video_index := 0 } }] := by
  refine ⟨by decide, by decide, by decide, by decide⟩

/-- C5 counterexample: in a batch whose every video fails (so K = 0), the
error dictionary is returned and carries no `successful_videos` count at
all, so the returned count does not equal K. -/
theorem build_success_count_counterexample :
    ((([("u", "t")] : List (String × String)).filter
        (fun p => !failedTranscript ((fun _ : String => "Error: nope") p.1))).length
      = 0) ∧
    (build_vectorstore_from_multiple_videos (fun _ => "Error: nope")
        (fun s => [s]) [("u", "t")]).successful_videos = none ∧
    (build_vectorstore_from_multiple_videos (fun _ => "Error: nope")
        (fun s => [s]) [("u", "t")]).successful_videos ≠ some 0 := by
  refine ⟨by decide, by decide, by decide⟩

/-- C5 as amended: a batch with K non-failing and F failing fetches yields
exactly K success and F failed outcomes, ordered as the input sequence, and
whenever the success dictionary is returned (no top-level error) its
`successful_videos` equals K; an all-failed batch instead returns the error
dictionary, which carries no count. -/
theorem build_success_failure_counts (fetch : String → String)
    (split : String → List String) (inputs : List (String × String))
    (K F : Nat)
    (hK : K = (inputs.filter (fun p => !failedTranscript (fetch p.1))).length)
    (hF : F = (inputs.filter (fun p => failedTranscript (fetch p.1))).length) :
    ((build_vectorstore_from_multiple_videos fetch split
        inputs).processing_results.map (fun o => o.status)) =
      inputs.map (fun p =>
        if failedTranscript (fetch p.1) then "failed" else "success") ∧
    ((build_vectorstore_from_multiple_videos fetch split
        inputs).processing_results.filter
        (fun o => o.status == "success")).length = K ∧
    ((build_vectorstore_from_multiple_videos fetch split
        inputs).processing_results.filter
        (fun o => o.status == "failed")).length = F ∧
    ((build_vectorstore_from_multiple_videos fetch split inputs).error = none →
      (build_vectorstore_from_multiple_videos fetch split
        inputs).successful_videos = some K) := by
  rw [build_processing_results_eq]
  refine ⟨build_loop_statuses fetch split 0 inputs, ?_, ?_, ?_⟩
  · rw [build_loop_success_count fetch split 0 inputs, hK]
  · rw [build_loop_failed_count fetch split 0 inputs, hF]
  · simp only [build_vectorstore_from_multiple_videos]
    split
    · intro h; simp at h
    · intro _
      rw [build_loop_success_count fetch split 0 inputs, hK]

/-- C5 witness: a two-video batch with one success and one failure. -/
theorem build_success_failure_counts_witness :
    ((build_vectorstore_from_multiple_videos
        (fun u => if u == "u1" then "good text" else "Error: x")
        (fun s => [s]) [("u1", "t1"), ("u2", "t2")]).processing_results.map
        (fun o => o.status)) = ["success", "failed"] ∧
    (build_vectorstore_from_multiple_videos
        (fun u => if u == "u1" then "good text" else "Error: x")
        (fun s => [s]) [("u1", "t1"), ("u2", "t2")]).successful_videos =
      some 1 := by
  have h := build_success_failure_counts
    (fun u => if u == "u1" then "good text" else "Error: x")
    (fun s => [s]) [("u1", "t1"), ("u2", "t2")] 1 1 (by decide) (by decide)
  exact ⟨by decide, h.2.2.2 (by decide)⟩

/-- C6: if every video in the batch fails, the build returns the top-level
error with no index and no chunks; and in both branches the full per-video
breakdown is returned as the loop produced it, one outcome per input video
in input order. -/
theorem build_all_failed_error (fetch : String → String)
    (split : String → List String) (inputs : List (String × String)) :
    ((∀ p ∈ inputs, failedTranscript (fetch p.1) = true) →
      (build_vectorstore_from_multiple_videos fetch split inputs).error =
        some "No transcripts processed" ∧
      (build_vectorstore_from_multiple_videos fetch split inputs).index_chunks
        = none ∧
      (build_vectorstore_from_multiple_videos fetch split inputs).chunks
        = none) ∧
    (build_vectorstore_from_multiple_videos fetch split
        inputs).processing_results =
      (build_vectorstore_loop fetch split 0 inputs).2 ∧
    ((build_vectorstore_from_multiple_videos fetch split
        inputs).processing_results).length = inputs.length := by
  refine ⟨?_, build_processing_results_eq fetch split inputs, ?_⟩
  · intro hall
    have hnil := build_loop_fst_nil_of_failed fetch split 0 inputs hall
    simp only [build_vectorstore_from_multiple_videos]
    split
    · exact ⟨rfl, rfl, rfl⟩
    · rename_i hne
      rw [hnil] at hne
      simp at hne
  · rw [build_processing_results_eq]
    exact build_loop_snd_length fetch split 0 inputs

/-- C6 witness: a concrete all-failed batch. -/
theorem build_all_failed_error_witness :
    (build_vectorstore_from_multiple_videos (fun _ => "Error: x")
        (fun s => [s]) [("u1", "t1"), ("u2", "t2")]).error =
      some "No transcripts processed" ∧
    (build_vectorstore_from_multiple_videos (fun _ => "Error: x")
        (fun s => [s]) [("u1", "t1"), ("u2", "t2")]).index_chunks = none := by
  have h := (build_all_failed_error (fun _ => "Error: x") (fun s => [s])
    [("u1", "t1"), ("u2", "t2")]).1 (by decide)
  exact ⟨h.1, h.2.1⟩

/-- C8: every chunk carried by the build result is tagged with the position
index of the video it was derived from, and its `source` and `title`
metadata equal that video's url and title in the input sequence. -/
theorem chunk_metadata_provenance (fetch : String → String)
    (split : String → List String) (inputs : List (String × String))
    (cs : List Chunk)
    (hcs : (build_vectorstore_from_multiple_videos fetch split inputs).chunks
      = some cs) :
    ∀ c ∈ cs,
      inputs[c.metadata.video_index]? =
        some (c.metadata.source, c.metadata.title) ∧
      c ∈ videoChunks fetch split c.metadata.video_index c.metadata.source
        c.metadata.title := by
  intro c hc
  rw [build_chunks_eq fetch split inputs cs hcs] at hc
  obtain ⟨i, url, title, h1, h2, h3⟩ := mem_build_loop_fst fetch split 0 inputs c hc
  rw [Nat.zero_add] at h2 h3
  rw [h2]
  exact ⟨h1, h3⟩

/-- C8 witness: a one-video batch whose single chunk is tagged with index 0
and the video's url and title. -/
theorem chunk_metadata_provenance_witness :
    (([("u", "t")] : List (String × String))[(0 : Nat)]? = some ("u", "t")) ∧
    ({ page_content := "good",
       metadata := { source := "u", title := "t", video_index := 0 } } : Chunk)
      ∈ videoChunks (fun _ => "good") (fun s => [s]) 0 "u" "t" := by
  have h := chunk_metadata_provenance (fun _ => "good") (fun s => [s])
    [("u", "t")]
    [{ page_content := "good",
       metadata := { source := "u", title := "t", video_index := 0 } }]
    (by decide)
    { page_content := "good",
      metadata := { source := "u", title := "t", video_index := 0 } }
    (by simp)
  exact h

/-- The playlist match loop never grows past the cap, provided it starts
strictly below the cap (the source checks the cap only after appending). -/
theorem playlist_matches_loop_length (maxV : Nat) :
    ∀ (m acc : List (String × String)), acc.length < maxV →
      (playlist_matches_loop maxV acc m).length ≤ maxV := by
  intro m
  induction m with
  | nil => intro acc h; simpa [playlist_matches_loop] using Nat.le_of_lt h
  | cons q rest ih =>
    intro acc h
    cases q with
    | mk vid title =>
      simp only [playlist_matches_loop]
      split
      · exact ih acc h
      · split
        · simpa using h
        · rename_i hlt
          apply ih
          simp only [List.length_append, List.length_cons, List.length_nil] at hlt ⊢
          omega

/-- The playlist match loop preserves distinctness of the collected urls. -/
theorem playlist_matches_loop_nodup (maxV : Nat) :
    ∀ (m acc : List (String × String)), (acc.map Prod.fst).Nodup →
      ((playlist_matches_loop maxV acc m).map Prod.fst).Nodup := by
  intro m
  induction m with
  | nil => intro acc h; simpa [playlist_matches_loop] using h
  | cons q rest ih =>
    intro acc h
    cases q with
    | mk vid title =>
      simp only [playlist_matches_loop]
      split
      · exact ih acc h
      · rename_i hany
        rw [Bool.not_eq_true] at hany
        have hnotin : watchUrl vid ∉ acc.map Prod.fst := by
          intro hmem
          obtain ⟨p, hp, hpe⟩ := List.mem_map.mp hmem
          have hp2 := List.any_eq_false.mp hany p hp
          rw [hpe] at hp2
          simp at hp2
        have h2 : ((acc ++ [(watchUrl vid, title)]).map Prod.fst).Nodup := by
          simp only [List.map_append, List.map_cons, List.map_nil]
          simp [List.nodup_append, h, hnotin]
        split
        · exact h2
        · exact ih _ h2

/-- The playlist match loop appends, after the incoming accumulator, a
subsequence of the canonical entries of the matches, in match order. -/
theorem playlist_matches_loop_decomp (maxV : Nat) :
    ∀ (m acc : List (String × String)),
      ∃ tail, playlist_matches_loop maxV acc m = acc ++ tail ∧
        tail.Sublist (m.map (fun p => (watchUrl p.1, p.2))) := by
  intro m
  induction m with
  | nil =>
    intro acc
    exact ⟨[], by simp [playlist_matches_loop], List.nil_sublist _⟩
  | cons q rest ih =>
    intro acc
    cases q with
    | mk vid title =>
      simp only [playlist_matches_loop]
      split
      · obtain ⟨tail, he, hs⟩ := ih acc
        exact ⟨tail, he, hs.cons _⟩
      · split
        · exact ⟨[(watchUrl vid, title)], rfl, (List.nil_sublist _).cons₂ _⟩
        · obtain ⟨tail, he, hs⟩ := ih (acc ++ [(watchUrl vid, title)])
          refine ⟨(watchUrl vid, title) :: tail, ?_, hs.cons₂ _⟩
          rw [he]
          simp

/-- Starting from an empty accumulator, the script loop returns either
nothing or the match-loop result of one of the scripts. -/
theorem playlist_scripts_loop_cases (maxV : Nat) :
    ∀ (scripts : List (List (String × String))),
      playlist_scripts_loop maxV [] scripts = [] ∨
      ∃ m ∈ scripts, playlist_scripts_loop maxV [] scripts =
        playlist_matches_loop maxV [] m := by
  intro scripts
  induction scripts with
  | nil => exact Or.inl rfl
  | cons m rest ih =>
    simp only [playlist_scripts_loop]
    split
    · rename_i hemp
      have hnil : playlist_matches_loop maxV [] m = [] :=
        List.isEmpty_iff.mp hemp
      rw [hnil]
      rcases ih with h | ⟨m2, hm2, he⟩
      · exact Or.inl h
      · exact Or.inr ⟨m2, List.mem_cons_of_mem _ hm2, he⟩
    · exact Or.inr ⟨m, by simp, rfl⟩

/-- C2 counterexample: the search extractor keeps two entries with the same
video identifier (it never deduplicates), and the playlist extractor called
with `max_videos = 0` still returns one entry, because the cap is tested
only after an append. -/
theorem enumerators_cap_dedup_counterexample :
    (extract_video_links_from_search_url
        [⟨some "a", some "t"⟩, ⟨some "a", some "t"⟩] 10).map Prod.fst =
      ["https://www.youtube.com/watch?v=a",
       "https://www.youtube.com/watch?v=a"] ∧
    ¬ ((extract_video_links_from_search_url
        [⟨some "a", some "t"⟩, ⟨some "a", some "t"⟩] 10).map Prod.fst).Nodup ∧
    (extract_video_links_from_playlist
        "https://www.youtube.com/playlist?list=PL1"
        [[("aaaaaaaaaaa", "t1")]] 0).length = 1 := by
  refine ⟨by decide, by decide, by decide⟩

/-- C2 as amended: the search extractor returns at most `max_videos`
entries and keeps first-seen order (but performs no deduplication), and the
playlist extractor, for any positive `max_videos`, returns at most
`max_videos` entries with pairwise-distinct urls, in first-seen order of
the page matches. -/
theorem enumerators_bounded_ordered (entries : List YEntry) (maxV : Nat)
    (purl : String) (scripts : List (List (String × String))) (maxP : Nat) :
    ((extract_video_links_from_search_url entries maxV).length ≤ maxV ∧
     (extract_video_links_from_search_url entries maxV).Sublist
       (entries.filterMap canonEntry)) ∧
    (1 ≤ maxP →
      (extract_video_links_from_playlist purl scripts maxP).length ≤ maxP ∧
      ((extract_video_links_from_playlist purl scripts maxP).map
        Prod.fst).Nodup ∧
      (extract_video_links_from_playlist purl scripts maxP).Sublist
        ((scripts.flatten).map (fun p => (watchUrl p.1, p.2)))) := by
  constructor
  · constructor
    · calc (extract_video_links_from_search_url entries maxV).length
          ≤ (entries.take maxV).length := List.length_filterMap_le _ _
        _ ≤ maxV := by simp [List.length_take]
    · exact (List.take_sublist maxV entries).filterMap canonEntry
  · intro hmax
    unfold extract_video_links_from_playlist
    split
    · exact ⟨by simp, by simp, by simp⟩
    · rcases playlist_scripts_loop_cases maxP scripts with h | ⟨m, hm, he⟩
      · rw [h]
        exact ⟨by simp, by simp, by simp⟩
      · rw [he]
        obtain ⟨tail, hdec, hsub⟩ := playlist_matches_loop_decomp maxP m []
        simp only [List.nil_append] at hdec
        refine ⟨playlist_matches_loop_length maxP m [] (by simpa using hmax),
          playlist_matches_loop_nodup maxP m [] (by simp), ?_⟩
        rw [hdec]
        exact hsub.trans ((List.sublist_flatten_of_mem hm).map _)

/-- C2 witness: a playlist page carrying a duplicated id is capped and
deduplicated. -/
theorem enumerators_bounded_ordered_witness :
    (extract_video_links_from_playlist
        "https://www.youtube.com/playlist?list=PL1"
        [[("aaaaaaaaaaa", "t1"), ("aaaaaaaaaaa", "t2"),
          ("bbbbbbbbbbb", "t3")]] 5).length ≤ 5 ∧
    ((extract_video_links_from_playlist
        "https://www.youtube.com/playlist?list=PL1"
        [[("aaaaaaaaaaa", "t1"), ("aaaaaaaaaaa", "t2"),
          ("bbbbbbbbbbb", "t3")]] 5).map Prod.fst).Nodup := by
  have h := (enumerators_bounded_ordered [] 0
    "https://www.youtube.com/playlist?list=PL1"
    [[("aaaaaaaaaaa", "t1"), ("aaaaaaaaaaa", "t2"), ("bbbbbbbbbbb", "t3")]]
    5).2 (by decide)
  exact ⟨h.1, h.2.1⟩

/-- The display deduplication keeps a subsequence of the incoming list. -/
theorem unique_sources_loop_sublist :
    ∀ (l : List SourceEntry) (seen : List String),
      (unique_sources_loop l seen).Sublist l := by
  intro l
  induction l with
  | nil => intro seen; exact List.Sublist.refl _
  | cons s rest ih =>
    intro seen
    simp only [unique_sources_loop]
    split
    · exact (ih seen).cons s
    · exact (ih (s.url :: seen)).cons₂ s

/-- Every retained entry has an unseen url and is the first entry of the
incoming list carrying its url. -/
theorem unique_sources_loop_head_filter :
    ∀ (l : List SourceEntry) (seen : List String) (e : SourceEntry),
      e ∈ unique_sources_loop l seen →
      e.url ∉ seen ∧ (l.filter (fun s => s.url == e.url)).head? = some e := by
  intro l
  induction l with
  | nil => intro seen e he; simp [unique_sources_loop] at he
  | cons s rest ih =>
    intro seen e he
    simp only [unique_sources_loop] at he
    split at he
    · rename_i hcont
      obtain ⟨hnot, hhead⟩ := ih seen e he
      have hsmem : s.url ∈ seen := by simpa using hcont
      have hne : (s.url == e.url) = false := by
        simp only [beq_eq_false_iff_ne, ne_eq]
        intro hh
        exact hnot (hh ▸ hsmem)
      refine ⟨hnot, ?_⟩
      rw [List.filter_cons, hne]
      exact hhead
    · rename_i hcont
      have hsnot : s.url ∉ seen := by simpa using hcont
      rcases List.mem_cons.mp he with rfl | htail
      · refine ⟨hsnot, ?_⟩
        rw [List.filter_cons]
        simp
      · obtain ⟨hnot, hhead⟩ := ih (s.url :: seen) e htail
        have hne : (s.url == e.url) = false := by
          simp only [beq_eq_false_iff_ne, ne_eq]
          intro hh
          exact hnot (hh ▸ List.mem_cons_self _ _)
        refine ⟨fun hmem => hnot (List.mem_cons_of_mem _ hmem), ?_⟩
        rw [List.filter_cons, hne]
        exact hhead

/-- The display deduplication produces pairwise-distinct urls. -/
theorem unique_sources_loop_nodup :
    ∀ (l : List SourceEntry) (seen : List String),
      ((unique_sources_loop l seen).map (fun s => s.url)).Nodup := by
  intro l
  induction l with
  | nil => intro seen; simp [unique_sources_loop]
  | cons s rest ih =>
    intro seen
    simp only [unique_sources_loop]
    split
    · exact ih seen
    · simp only [List.map_cons, List.nodup_cons]
      refine ⟨?_, ih (s.url :: seen)⟩
      intro hmem
      obtain ⟨e, he, heq⟩ := List.mem_map.mp hmem
      have := (unique_sources_loop_head_filter rest (s.url :: seen) e he).1
      exact this (heq ▸ List.mem_cons_self _ _)

/-- C7 counterexample: two retrieved chunks of the same video produce two
attached source entries with the same url — the `sources` list stored with
the answer is not deduplicated. -/
theorem answer_sources_duplicate_counterexample :
    answer_sources [⟨"c1", some [("title", "T"), ("source", "U")]⟩,
        ⟨"c2", some [("title", "T"), ("source", "U")]⟩] =
      [{ title := "T", url := "U" }, { title := "T", url := "U" }] ∧
    ¬ ((answer_sources [⟨"c1", some [("title", "T"), ("source", "U")]⟩,
        ⟨"c2", some [("title", "T"), ("source", "U")]⟩]).map
        (fun s => s.url)).Nodup := by
  refine ⟨by decide, by decide⟩

/-- C7 as amended: the deduplicated list rendered with an answer
(`unique_sources`) has pairwise-distinct urls, is a subsequence of the
attached sources (so first-occurrence order is preserved), and each
retained entry is the first attached entry carrying its url. -/
theorem unique_sources_nodup_first (sources : List SourceEntry) :
    ((unique_sources sources).map (fun s => s.url)).Nodup ∧
    (unique_sources sources).Sublist sources ∧
    ∀ e ∈ unique_sources sources,
      (sources.filter (fun s => s.url == e.url)).head? = some e := by
  refine ⟨unique_sources_loop_nodup sources [],
    unique_sources_loop_sublist sources [], ?_⟩
  intro e he
  exact (unique_sources_loop_head_filter sources [] e he).2

/-- C7 witness: with a duplicated url the first occurrence is retained. -/
theorem unique_sources_nodup_first_witness :
    (([⟨"T", "U"⟩, ⟨"T2", "U"⟩, ⟨"T3", "V"⟩] : List SourceEntry).filter
        (fun s => s.url == "U")).head? = some ⟨"T", "U"⟩ := by
  exact (unique_sources_nodup_first
    [⟨"T", "U"⟩, ⟨"T2", "U"⟩, ⟨"T3", "V"⟩]).2.2 ⟨"T", "U"⟩ (by decide)

/-- A helper equality between the invalid-URL literal and its split form. -/
theorem errInvalid_eq :
    ("Error: Invalid YouTube URL" : String) =
      "Error" ++ ": Invalid YouTube URL" := by decide

/-- A helper equality between the format-error literal and its split form. -/
theorem errUnexpected_eq :
    ("Error: Unexpected transcript format received." : String) =
      "Error" ++ ": Unexpected transcript format received." := by decide

/-- A caption result is either a well-formed segment list joined to the
space-intercalation of exactly its texts, or rejected with the format-error
sentinel. -/
theorem joinCaptions_classify (r : CapResult) :
    (∃ items, r = CapResult.segs items ∧
      items.all (fun s => s.text.isSome) = true ∧
      joinCaptions r =
        String.intercalate " " (items.filterMap (fun s => s.text))) ∨
    joinCaptions r = "Error" ++ ": Unexpected transcript format received." := by
  cases r with
  | segs items =>
    by_cases hall : items.all (fun s => s.text.isSome) = true
    · exact Or.inl ⟨items, rfl, hall, by simp [joinCaptions, hall]⟩
    · right
      rw [Bool.not_eq_true] at hall
      simp only [joinCaptions, hall, Bool.false_eq_true, if_false]
      exact errUnexpected_eq
  | other =>
    right
    simp only [joinCaptions]
    exact errUnexpected_eq

/-- A bracket-free netloc never triggers the `urlsplit` bracket raise. -/
theorem urlparseRaises_none_of_noBrackets (url : String)
    (h : netlocNoBrackets url = true) : urlparseRaises url = none := by
  unfold netlocNoBrackets at h
  simp only [Bool.and_eq_true, Bool.not_eq_true'] at h
  simp only [urlparseRaises]
  rw [h.1, h.2]
  decide

/-- When `urlparse` raises, the checked fetcher returns the converted
exception text. -/
theorem transcript_checked_raise
    (t1 t2 t3 : String → Except PyExn CapResult)
    (t4 : String → Except PyExn String) (url m : String)
    (hm : urlparseRaises url = some m) :
    get_youtube_transcript_checked t1 t2 t3 t4 url = "Error: " ++ m := by
  unfold get_youtube_transcript_checked get_youtube_transcript_trace_checked
  rw [hm]

/-- When `urlparse` does not raise, the checked fetcher agrees with the
non-raising model. -/
theorem transcript_checked_noraise
    (t1 t2 t3 : String → Except PyExn CapResult)
    (t4 : String → Except PyExn String) (url : String)
    (hm : urlparseRaises url = none) :
    get_youtube_transcript_checked t1 t2 t3 t4 url =
      get_youtube_transcript t1 t2 t3 t4 url := by
  unfold get_youtube_transcript_checked get_youtube_transcript_trace_checked
    get_youtube_transcript
  rw [hm]

/-- C3: the transcript fetcher is a total function into strings (every
Python raise site, `urlparse`'s `ValueError` included, is converted), and
every result is classified by how it arose: an `Error`-prefixed sentinel;
or the space-intercalation of exactly the segment texts of a well-formed
caption list returned by the first caption tier that succeeded; or the
text returned by the audio tier after all three caption tiers failed.  And
when all caption tiers fail and the final audio tier raises, the exception
is converted into exactly the `Error (AssemblyAI): <detail>` string, which
carries the sentinel. -/
theorem transcript_fetch_sentinel
    (t1 t2 t3 : String → Except PyExn CapResult)
    (t4 : String → Except PyExn String) (url : String) :
    ((∃ rest, get_youtube_transcript_checked t1 t2 t3 t4 url =
        "Error" ++ rest) ∨
     (∃ vid items,
        get_youtube_video_id url = some vid ∧ (vid == "") = false ∧
        items.all (fun s => s.text.isSome) = true ∧
        (t1 vid = Except.ok (CapResult.segs items) ∨
         (∃ e1, t1 vid = Except.error e1 ∧
            t2 vid = Except.ok (CapResult.segs items)) ∨
         (∃ e1 e2, t1 vid = Except.error e1 ∧ t2 vid = Except.error e2 ∧
            t3 vid = Except.ok (CapResult.segs items))) ∧
        get_youtube_transcript_checked t1 t2 t3 t4 url =
          String.intercalate " " (items.filterMap (fun s => s.text))) ∨
     (∃ vid s e1 e2 e3,
        get_youtube_video_id url = some vid ∧ (vid == "") = false ∧
        t1 vid = Except.error e1 ∧ t2 vid = Except.error e2 ∧
        t3 vid = Except.error e3 ∧ t4 url = Except.ok s ∧
        get_youtube_transcript_checked t1 t2 t3 t4 url = s)) ∧
    (∀ vid e1 e2 e3 e4,
      urlparseRaises url = none →
      get_youtube_video_id url = some vid → (vid == "") = false →
      t1 vid = Except.error e1 → t2 vid = Except.error e2 →
      t3 vid = Except.error e3 → t4 url = Except.error e4 →
      get_youtube_transcript_checked t1 t2 t3 t4 url =
        "Error" ++ (" (AssemblyAI): " ++ PyExn.msg e4)) := by
  constructor
  · cases hraise : urlparseRaises url with
    | some m =>
      refine Or.inl ⟨": " ++ m, ?_⟩
      rw [transcript_checked_raise t1 t2 t3 t4 url m hraise,
        show ("Error: " : String) = "Error" ++ ": " from by decide,
        String.append_assoc]
    | none =>
      rw [transcript_checked_noraise t1 t2 t3 t4 url hraise]
      unfold get_youtube_transcript get_youtube_transcript_trace
      cases hvid : get_youtube_video_id url with
      | none => exact Or.inl ⟨": Invalid YouTube URL", errInvalid_eq⟩
      | some vid =>
        by_cases hv : (vid == "") = true
        · simp only [hv, if_true]
          exact Or.inl ⟨": Invalid YouTube URL", errInvalid_eq⟩
        · rw [Bool.not_eq_true] at hv
          simp only [hv, Bool.false_eq_true, if_false]
          cases h1 : t1 vid with
          | ok r =>
            rcases joinCaptions_classify r with ⟨items, rfl, hall, hj⟩ | hj
            · exact Or.inr (Or.inl ⟨vid, items, rfl, hv, hall,
                Or.inl h1, hj⟩)
            · exact Or.inl ⟨": Unexpected transcript format received.", hj⟩
          | error e1 =>
            cases h2 : t2 vid with
            | ok r =>
              rcases joinCaptions_classify r with ⟨items, rfl, hall, hj⟩ | hj
              · exact Or.inr (Or.inl ⟨vid, items, rfl, hv, hall,
                  Or.inr (Or.inl ⟨e1, h1, h2⟩), hj⟩)
              · exact Or.inl ⟨": Unexpected transcript format received.", hj⟩
            | error e2 =>
              cases h3 : t3 vid with
              | ok r =>
                rcases joinCaptions_classify r with ⟨items, rfl, hall, hj⟩ | hj
                · exact Or.inr (Or.inl ⟨vid, items, rfl, hv, hall,
                    Or.inr (Or.inr ⟨e1, e2, h1, h2, h3⟩), hj⟩)
                · exact Or.inl ⟨": Unexpected transcript format received.",
                    hj⟩
              | error e3 =>
                unfold assemblyai_transcribe_youtube
                rw [hvid]
                simp only [hv, Bool.false_eq_true, if_false]
                cases h4 : t4 url with
                | ok s =>
                  exact Or.inr (Or.inr ⟨vid, s, e1, e2, e3, rfl, hv,
                    h1, h2, h3, rfl, rfl⟩)
                | error e4 =>
                  refine Or.inl ⟨" (AssemblyAI): " ++ PyExn.msg e4, ?_⟩
                  show ("Error (AssemblyAI): " ++ PyExn.msg e4 : String) = _
                  rw [show ("Error (AssemblyAI): " : String) =
                    "Error" ++ " (AssemblyAI): " from by decide,
                    String.append_assoc]
  · intro vid e1 e2 e3 e4 hraise hvid hv h1 h2 h3 h4
    rw [transcript_checked_noraise t1 t2 t3 t4 url hraise]
    unfold get_youtube_transcript get_youtube_transcript_trace
    rw [hvid]
    simp only [hv, Bool.false_eq_true, if_false, h1, h2, h3]
    unfold assemblyai_transcribe_youtube
    rw [hvid]
    simp only [hv, Bool.false_eq_true, if_false, h4]
    rw [show ("Error (AssemblyAI): " : String) =
      "Error" ++ " (AssemblyAI): " from by decide, String.append_assoc]

/-- C3 witness: all four tiers fail on a well-formed watch URL and the
result is the converted AssemblyAI error string. -/
theorem transcript_fetch_sentinel_witness :
    get_youtube_transcript_checked (fun _ => Except.error (PyExn.other "a"))
      (fun _ => Except.error (PyExn.other "b"))
      (fun _ => Except.error (PyExn.other "c"))
      (fun _ => Except.error (PyExn.other "boom"))
      "https://www.youtube.com/watch?v=dQw4w9WgXcQ" =
      "Error" ++ (" (AssemblyAI): " ++ PyExn.msg (PyExn.other "boom")) :=
  (transcript_fetch_sentinel (fun _ => Except.error (PyExn.other "a"))
      (fun _ => Except.error (PyExn.other "b"))
      (fun _ => Except.error (PyExn.other "c"))
      (fun _ => Except.error (PyExn.other "boom"))
      "https://www.youtube.com/watch?v=dQw4w9WgXcQ").2
    "dQw4w9WgXcQ" (PyExn.other "a") (PyExn.other "b") (PyExn.other "c")
    (PyExn.other "boom") (by decide) (by decide) (by decide) rfl rfl rfl rfl

/-- C9: when the first caption tier returns a list of segments that all
carry a text field, the returned transcript is the segment texts joined
with single spaces, in segment order. -/
theorem caption_segments_joined
    (t1 t2 t3 : String → Except PyExn CapResult)
    (t4 : String → Except PyExn String) (url vid : String)
    (texts : List String)
    (hvid : get_youtube_video_id url = some vid)
    (hne : (vid == "") = false)
    (h1 : t1 vid = Except.ok (CapResult.segs
      (texts.map (fun t => { text := some t })))) :
    get_youtube_transcript t1 t2 t3 t4 url =
      String.intercalate " " texts := by
  unfold get_youtube_transcript get_youtube_transcript_trace
  rw [hvid]
  simp only [hne, Bool.false_eq_true, if_false, h1]
  simp [joinCaptions, List.all_map, List.filterMap_map, Function.comp_def,
    List.filterMap_some]

/-- C9 witness: two segments are joined with one space. -/
theorem caption_segments_joined_witness :
    get_youtube_transcript
      (fun _ => Except.ok (CapResult.segs
        [{ text := some "hello" }, { text := some "world" }]))
      (fun _ => Except.error (PyExn.other "b"))
      (fun _ => Except.error (PyExn.other "c"))
      (fun _ => Except.error (PyExn.other "d"))
      "https://www.youtube.com/watch?v=dQw4w9WgXcQ" =
      String.intercalate " " ["hello", "world"] :=
  caption_segments_joined
    (fun _ => Except.ok (CapResult.segs
      [{ text := some "hello" }, { text := some "world" }]))
    (fun _ => Except.error (PyExn.other "b"))
    (fun _ => Except.error (PyExn.other "c"))
    (fun _ => Except.error (PyExn.other "d"))
    "https://www.youtube.com/watch?v=dQw4w9WgXcQ" "dQw4w9WgXcQ"
    ["hello", "world"] (by decide) (by decide) rfl

/-- C10 counterexample: the URL `http://[abc` meets every condition of the
claim — its netloc contains neither a youtube.com host with a `v`
parameter nor youtu.be, and the regex finds no eleven-character id — yet
`urlparse` raises `ValueError("Invalid IPv6 URL")`, so
`get_youtube_video_id` raises instead of returning `None` and the fetcher
returns `Error: Invalid IPv6 URL`, not the claimed exact sentinel. -/
theorem invalid_url_raises_counterexample :
    strContains (urlparseParts "http://[abc").netloc "youtube.com" = false ∧
    strContains (urlparseParts "http://[abc").netloc "youtu.be" = false ∧
    idScan "http://[abc" = none ∧
    get_youtube_video_id_checked "http://[abc" =
      Except.error "Invalid IPv6 URL" ∧
    get_youtube_transcript_trace_checked
      (fun _ => Except.error (PyExn.other "a"))
      (fun _ => Except.error (PyExn.other "b"))
      (fun _ => Except.error (PyExn.other "c"))
      (fun _ => Except.error (PyExn.other "d")) "http://[abc" =
      ("Error: Invalid IPv6 URL", []) ∧
    ("Error: Invalid IPv6 URL" : String) ≠ "Error: Invalid YouTube URL" := by
  refine ⟨by decide, by decide, by decide, rfl, rfl, by decide⟩

/-- C10 as amended: on a URL whose netloc contains no square bracket (so
`urlparse` does not raise in any CPython version) and from which no video
id can be extracted — no `v` query parameter on a youtube.com host, not a
youtu.be URL, and no eleven-character id pattern — `get_youtube_video_id`
returns `None` rather than raising and the fetcher returns exactly the
invalid-URL sentinel with no tier attempted; whereas when `urlparse`
raises its bracket `ValueError`, `get_youtube_video_id` propagates it and
the fetcher converts it into `Error: <message>`, again attempting no
tier. -/
theorem invalid_url_short_circuit
    (t1 t2 t3 : String → Except PyExn CapResult)
    (t4 : String → Except PyExn String) (url : String)
    (h1 : strContains (urlparseParts url).netloc "youtube.com" = true →
      qsFirstValue (urlparseParts url).query "v" = none)
    (h2 : strContains (urlparseParts url).netloc "youtu.be" = false)
    (h3 : idScan url = none) :
    (netlocNoBrackets url = true →
      get_youtube_video_id_checked url = Except.ok none ∧
      get_youtube_transcript_trace_checked t1 t2 t3 t4 url =
        ("Error: Invalid YouTube URL", [])) ∧
    (∀ m, urlparseRaises url = some m →
      get_youtube_video_id_checked url = Except.error m ∧
      get_youtube_transcript_trace_checked t1 t2 t3 t4 url =
        ("Error: " ++ m, [])) := by
  have hid : get_youtube_video_id url = none := by
    unfold get_youtube_video_id
    by_cases hy : strContains (urlparseParts url).netloc "youtube.com" = true
    · simp [hy, h1 hy, h2, h3]
    · rw [Bool.not_eq_true] at hy
      simp [hy, h2, h3]
  constructor
  · intro hb
    have hraise := urlparseRaises_none_of_noBrackets url hb
    constructor
    · unfold get_youtube_video_id_checked
      rw [hraise, hid]
    · unfold get_youtube_transcript_trace_checked
      rw [hraise]
      unfold get_youtube_transcript_trace
      rw [hid]
  · intro m hm
    constructor
    · unfold get_youtube_video_id_checked
      rw [hm]
    · unfold get_youtube_transcript_trace_checked
      rw [hm]

/-- C10 witness: a bracket-free non-YouTube URL with no id-shaped
component. -/
theorem invalid_url_short_circuit_witness :
    get_youtube_video_id_checked "https://example.com/abc" =
      Except.ok none ∧
    get_youtube_transcript_trace_checked
      (fun _ => Except.error (PyExn.other "a"))
      (fun _ => Except.error (PyExn.other "b"))
      (fun _ => Except.error (PyExn.other "c"))
      (fun _ => Except.error (PyExn.other "d")) "https://example.com/abc" =
      ("Error: Invalid YouTube URL", []) :=
  (invalid_url_short_circuit (fun _ => Except.error (PyExn.other "a"))
    (fun _ => Except.error (PyExn.other "b"))
    (fun _ => Except.error (PyExn.other "c"))
    (fun _ => Except.error (PyExn.other "d")) "https://example.com/abc"
    (by decide) (by decide) (by decide)).1 (by decide)

/-- C4: a URL containing `/watch?v=` and not `list=` classifies as
single_video, and any URL containing `list=` classifies as playlist,
whatever other markers it contains. -/
theorem detect_url_type_single_and_playlist (url : String) :
    (strContains url "/watch?v=" = true → strContains url "list=" = false →
      detect_url_type url = "single_video") ∧
    (strContains url "list=" = true → detect_url_type url = "playlist") := by
  constructor
  · intro h1 h2
    simp [detect_url_type, h1, h2]
  · intro h
    simp [detect_url_type, h]

/-- C4 witness: the two branches at concrete URLs, including a URL that
carries both a watch marker and a playlist marker. -/
theorem detect_url_type_single_and_playlist_witness :
    detect_url_type "https://www.youtube.com/watch?v=dQw4w9WgXcQ" =
      "single_video" ∧
    detect_url_type "https://www.youtube.com/watch?v=dQw4w9WgXcQ&list=PL123" =
      "playlist" :=
  ⟨(detect_url_type_single_and_playlist
      "https://www.youtube.com/watch?v=dQw4w9WgXcQ").1 (by decide) (by decide),
   (detect_url_type_single_and_playlist
      "https://www.youtube.com/watch?v=dQw4w9WgXcQ&list=PL123").2 (by decide)⟩

end YtRag
